import Mathlib

/-!
Shallow embedding of `Blog generation in aws/app.py`.

The module is a serverless handler: it parses an event body, generates blog
text either with a direct Bedrock inference call or a four-stage CrewAI
pipeline, writes a non-empty result to S3 under a timestamped key, and
returns a fixed success envelope.

Modelling conventions:
* Python values are `PyVal`; Python exceptions are `Exn`.
* Every translated function returns `List Effect × Except Exn PyVal`:
  the list records, in order, the external calls attempted (model
  invocation, crew kickoff, object-store write), and the `Except` carries
  either the returned value or an uncaught Python exception.
* Calls into external services (boto3 / json.loads of the request body /
  CrewAI kickoff / the getattr chain on the edit task) are oracles supplied
  by an `Env`; their internal behaviour is outside the repository.
-/

/-- Model of the Python values this module manipulates. -/
inductive PyVal where
  | pnone
  | pbool (b : Bool)
  | pint (n : Int)
  | pstr (s : String)
  | plist (xs : List PyVal)
  | pdict (kvs : List (String × PyVal))

/-- Model of Python exceptions that the translated code can raise or catch. -/
inductive Exn where
  | keyError (k : String)
  | typeError
  | valueError (msg : String)
  | external (msg : String)
deriving Repr, DecidableEq

/-- Python truthiness (`if v:`): None/False/0/""/[]/{} are falsy. -/
def pyTruthy : PyVal → Bool
  | .pnone => false
  | .pbool b => b
  | .pint n => n != 0
  | .pstr s => s != ""
  | .plist [] => false
  | .plist (_ :: _) => true
  | .pdict [] => false
  | .pdict (_ :: _) => true

/-- Python `str(v)` conversion, as used by f-string interpolation and
`str(result)`.  Only the string case is behaviourally relevant to the
module (`str` is the identity on `str`, as in Python); the rendering of
containers is abbreviated. -/
def pyStrOf : PyVal → String
  | .pnone => "None"
  | .pbool true => "True"
  | .pbool false => "False"
  | .pint n => toString n
  | .pstr s => s
  | .plist _ => "<list>"
  | .pdict _ => "<dict>"

/-- Python whitespace, as stripped by `str.strip()`. -/
def pyIsSpace (c : Char) : Bool :=
  c == ' ' || c == '\t' || c == '\n' || c == '\r' || c == '\x0b' || c == '\x0c'

/-- Python `s.strip()`: removes leading and trailing whitespace. -/
def pyStrip (s : String) : String :=
  String.mk (((s.toList.dropWhile pyIsSpace).reverse.dropWhile pyIsSpace).reverse)

/-- Python subscript `v[k]` with a string key: returns the entry of a dict,
raises `KeyError` if the key is absent and `TypeError` if `v` is not
subscriptable by strings. -/
def pySubscript : PyVal → String → Except Exn PyVal
  | .pdict kvs, k =>
      match kvs.lookup k with
      | some v => .ok v
      | none => .error (.keyError k)
  | _, _ => .error .typeError

/-- Python `v.get(k)` on a dict (the handler only calls it on the parsed
body, which is a dict once subscripting it has succeeded): value or None. -/
def pyGet (v : PyVal) (k : String) : PyVal :=
  match v with
  | .pdict kvs => match kvs.lookup k with
      | some w => w
      | none => .pnone
  | _ => .pnone

/-- Python `v.get(k, default)` on a dict. -/
def pyGetD (v : PyVal) (k : String) (d : PyVal) : PyVal :=
  match v with
  | .pdict kvs => match kvs.lookup k with
      | some w => w
      | none => d
  | _ => d

/-- Python `", ".join(v)`: joins an iterable of strings; raises `TypeError`
on a non-iterable or on a list with a non-string element.  Joining a string
iterates its characters, as in Python. -/
def pyJoinComma : PyVal → Except Exn String
  | .plist xs =>
      match allStrs xs with
      | some ss => .ok (String.intercalate ", " ss)
      | none => .error .typeError
  | .pstr s => .ok (String.intercalate ", " (s.toList.map (fun c => String.singleton c)))
  | .pdict kvs => .ok (String.intercalate ", " (kvs.map (fun kv => kv.fst)))
  | _ => .error .typeError
where
  allStrs : List PyVal → Option (List String)
    | [] => some []
    | .pstr s :: rest => (allStrs rest).map (fun ss => s :: ss)
    | _ :: _ => none

/-- `datetime.now()` value, split into calendar fields. -/
structure Timestamp where
  year : Nat
  month : Nat
  day : Nat
  hour : Nat
  minute : Nat
  second : Nat
deriving Repr, DecidableEq

/-- Zero-padded two-digit field, as strftime `%m`/`%d`/`%H`/`%M`/`%S`. -/
def pad2 (n : Nat) : String :=
  if n < 10 then "0" ++ toString n else toString n

/-- Zero-padded four-digit year, as strftime `%Y`. -/
def pad4 (n : Nat) : String :=
  if n < 10 then "000" ++ toString n
  else if n < 100 then "00" ++ toString n
  else if n < 1000 then "0" ++ toString n
  else toString n

/-- `datetime.now().strftime(<percent>Y<percent>m<percent>d-<percent>H<percent>M<percent>S)`. -/
def formatTime (t : Timestamp) : String :=
  pad4 t.year ++ pad2 t.month ++ pad2 t.day ++ "-" ++
    pad2 t.hour ++ pad2 t.minute ++ pad2 t.second

/-- CrewAI `LLM(...)` configuration object (`bedrock_llm`).  `temperature`
is kept as an exact rational. -/
structure LLMConfig where
  model : String
  temperature : ℚ
  max_tokens : Nat
  aws_region_name : String
  timeout : Nat
deriving Repr, DecidableEq

/-- `bedrock_llm = LLM(model="bedrock/meta.llama2-13b-chat-v1", ...)`. -/
def bedrock_llm : LLMConfig :=
  { model := "bedrock/meta.llama2-13b-chat-v1"
    temperature := 1 / 2
    max_tokens := 2048
    aws_region_name := "us-east-1"
    timeout := 300 }

/-- CrewAI `Agent(...)` configuration as supplied by this module. -/
structure Agent where
  role : String
  goal : String
  backstory : String
  allow_delegation : Bool
  llm : LLMConfig
deriving Repr, DecidableEq

/-- CrewAI `Task(...)` configuration: description, expected output, the
agent assigned, and the upstream tasks whose outputs form its prompt
context (`context=[...]`; a task built without `context` has none). -/
inductive CrewTask where
  | mk (description : String) (expected_output : String) (agent : Agent)
      (context : List CrewTask)

/-- The `context` list of a task. -/
def CrewTask.context : CrewTask → List CrewTask
  | .mk _ _ _ c => c

/-- The agent assigned to a task. -/
def CrewTask.agent : CrewTask → Agent
  | .mk _ _ a _ => a

/-- CrewAI `Process` selector. -/
inductive Process where
  | sequential
  | hierarchical
deriving Repr, DecidableEq

/-- CrewAI `Crew(...)` configuration. -/
structure Crew where
  agents : List Agent
  tasks : List CrewTask
  process : Process

/-- External calls attempted by an invocation, in order. -/
inductive Effect where
  | bedrockCall (prompt : String)
  | crewKickoff (c : Crew)
  | s3PutObject (bucket : String) (key : String) (body : PyVal)

/-- Is the effect an object-store write? -/
def Effect.isPut : Effect → Bool
  | .s3PutObject _ _ _ => true
  | _ => false

/-- Oracles for the external collaborators of `app.py`.

* `jsonLoads` — `json.loads` applied to the event body string; an `error`
  is a `json` decode failure on malformed input.
* `bedrockInvoke` — the direct-path chain `boto3.client` /
  `invoke_model` / `response.get('body').read()` / `json.loads(...)`,
  keyed by the prompt; `ok d` is the decoded response payload, `error`
  any exception raised inside that chain.  The fixed generation
  parameters of the request body (max_gen_len 512, temperature 0.5,
  top_p 0.9, model id, region, 300 s read timeout, 3 retries) are
  configuration folded into this oracle; no claim inspects them.
* `crewaiAvailable` — whether `from crewai import ...` succeeded, i.e.
  whether `Agent`/`Task`/`Crew`/`Process`/`LLM` are all non-None.
* `kickoff` — the outcome of `crew.kickoff()`.
* `editOutput` — the chain `getattr(edit_task, "output", None)` /
  `getattr(final_text, "raw", None)`: `error` if a getattr raised,
  `ok none` if it produced None, `ok (some v)` the raw value.
* `s3Put` — `s3.put_object(Bucket, Key, Body)`.
* `now` — `datetime.now()`. -/
structure Env where
  jsonLoads : String → Except Exn PyVal
  bedrockInvoke : String → Except Exn PyVal
  crewaiAvailable : Bool
  kickoff : Except Exn PyVal
  editOutput : Except Exn (Option PyVal)
  s3Put : String → String → PyVal → Except Exn Unit
  now : Timestamp

/-- The prompt built by `blog_generate_using_bedrock`
(`f"""<s>[INST]Human: Write a 200 words blog on the topic ..."""`). -/
def bedrockPrompt (blogtopic : PyVal) : String :=
  "<s>[INST]Human: Write a 200 words blog on the topic " ++ pyStrOf blogtopic ++
    "\n    Assistant:[/INST]\n    "

/-- `blog_generate_using_bedrock(blogtopic)` — direct generation path.
The try block covers client creation, the model invocation, response
decoding (all inside the `bedrockInvoke` oracle) and the
`response_data['generation']` lookup; any exception is caught, logged and
turned into an empty-string result. -/
def blog_generate_using_bedrock (env : Env) (blogtopic : PyVal) :
    List Effect × Except Exn PyVal :=
  let prompt := bedrockPrompt blogtopic
  match env.bedrockInvoke prompt with
  | .error _ => ([.bedrockCall prompt], .ok (.pstr ""))
  | .ok response_data =>
      match pySubscript response_data "generation" with
      | .error _ => ([.bedrockCall prompt], .ok (.pstr ""))
      | .ok blog_details => ([.bedrockCall prompt], .ok blog_details)

/-- `researcher = Agent(role="Market Research Analyst", ...)`. -/
def researcher : Agent :=
  { role := "Market Research Analyst"
    goal := "Research the topic, identify up-to-date facts, trends, statistics, pain points, and SEO keywords."
    backstory := "You are a meticulous B2B/B2C market researcher who summarizes credible insights succinctly."
    allow_delegation := false
    llm := bedrock_llm }

/-- `strategist = Agent(role="Content Strategist", ...)`. -/
def strategist : Agent :=
  { role := "Content Strategist"
    goal := "Design a high-converting outline aligned with the audience, brand, and SEO goals."
    backstory := "You structure content to maximize clarity, search intent match, and engagement."
    allow_delegation := false
    llm := bedrock_llm }

/-- `writer = Agent(role="Senior Copywriter", ...)`. -/
def writer : Agent :=
  { role := "Senior Copywriter"
    goal := "Write persuasive, clear copy that is accurate and on-brand."
    backstory := "You write concise, engaging articles with smooth flow and strong transitions."
    allow_delegation := false
    llm := bedrock_llm }

/-- `editor = Agent(role="Managing Editor", ...)`. -/
def editor : Agent :=
  { role := "Managing Editor"
    goal := "Edit for accuracy, coherence, brand tone, grammar, and SEO. Ensure factual consistency and polish."
    backstory := "You are uncompromising on quality and clarity; you deliver publication-ready content."
    allow_delegation := false
    llm := bedrock_llm }

/-- `research_task = Task(...)`: no `context` argument, so no upstream
context.  Parameters are the topic and the already-defaulted
`audience_str`/`brand_str`/`tone_str`/`keywords_str` strings. -/
def research_task (blogtopic : PyVal)
    (audience_str brand_str tone_str keywords_str : String) : CrewTask :=
  .mk
    ("Conduct research for a blog about \x27" ++ pyStrOf blogtopic ++ "\x27.\n" ++
      "Audience: " ++ audience_str ++ ". Brand: " ++ brand_str ++
      ". Desired tone: " ++ tone_str ++ ".\n" ++
      "If SEO keywords provided, prioritize them: " ++
      (if keywords_str != "" then keywords_str else "none provided") ++ ".\n" ++
      "Deliver: \n" ++
      "- 6-10 bullet points with key insights, stats (with approximate figures), and pain points\n" ++
      "- 8-12 SEO keyword ideas (short and long-tail)\n" ++
      "- 3-5 proposed angles for the article\n")
    "Bullet list of insights, keyword list, and angles suitable for planning the article."
    researcher
    []

/-- `outline_task = Task(..., context=[research_task])`. -/
def outline_task (blogtopic : PyVal)
    (audience_str brand_str tone_str keywords_str : String) : CrewTask :=
  .mk
    ("Create a detailed outline using the research. Include: title options, H2/H3 sections," ++
      " bullet notes per section, and an SEO snippet plan (title tag + meta description).")
    "A structured outline with 1-2 title options, 5-8 H2s (with optional H3s), and bullet notes."
    strategist
    [research_task blogtopic audience_str brand_str tone_str keywords_str]

/-- `write_task = Task(..., context=[research_task, outline_task])`. -/
def write_task (blogtopic : PyVal)
    (audience_str brand_str tone_str keywords_str : String)
    (target_word_count : PyVal) : CrewTask :=
  .mk
    ("Write a " ++ pyStrOf target_word_count ++
      "-word article based on the outline. Maintain " ++ tone_str ++ " tone for " ++
      audience_str ++ ". " ++ "We are " ++ brand_str ++
      ". Incorporate the most important keywords naturally and avoid keyword stuffing.")
    "A cohesive article with intro, sections per outline, and a conclusion. No outline or notes, only prose."
    writer
    [research_task blogtopic audience_str brand_str tone_str keywords_str,
     outline_task blogtopic audience_str brand_str tone_str keywords_str]

/-- `edit_task = Task(..., context=[research_task, outline_task, write_task])`. -/
def edit_task (blogtopic : PyVal)
    (audience_str brand_str tone_str keywords_str : String)
    (target_word_count : PyVal) : CrewTask :=
  .mk
    ("Revise the drafted article for clarity, correctness, brand voice, and SEO." ++
      " Ensure factual consistency with the research. Add a short meta description (<= 160 chars) and a CTA." ++
      " Return only the final publication-ready article text (followed by the meta description and CTA).")
    "Final polished article text suitable for publishing, then a \x27Meta Description:\x27 and \x27CTA:\x27 section."
    editor
    [research_task blogtopic audience_str brand_str tone_str keywords_str,
     outline_task blogtopic audience_str brand_str tone_str keywords_str,
     write_task blogtopic audience_str brand_str tone_str keywords_str target_word_count]

/-- `crew = Crew(agents=[...], tasks=[...], process=Process.sequential)`. -/
def crew (blogtopic : PyVal)
    (audience_str brand_str tone_str keywords_str : String)
    (target_word_count : PyVal) : Crew :=
  { agents := [researcher, strategist, writer, editor]
    tasks := [research_task blogtopic audience_str brand_str tone_str keywords_str,
              outline_task blogtopic audience_str brand_str tone_str keywords_str,
              write_task blogtopic audience_str brand_str tone_str keywords_str target_word_count,
              edit_task blogtopic audience_str brand_str tone_str keywords_str target_word_count]
    process := Process.sequential }

/-- `blog_generate_using_crewai_content_marketing(...)` — staged pipeline.

If the CrewAI primitives are unavailable the staged path is skipped
entirely and the direct Bedrock path is returned.  Otherwise the crew is
built and kicked off; an exception from `crew.kickoff()` (like one from
`", ".join(seo_keywords)` on bad keyword input) is NOT caught here and
propagates.  After a completed kickoff, the edit task raw output is
returned stripped when it is a non-blank string; on any other outcome of
the extraction chain — including an exception, which IS caught — the
aggregate `str(result).strip()` fallback is returned. -/
def blog_generate_using_crewai_content_marketing (env : Env)
    (blogtopic brand_name target_audience tone seo_keywords target_word_count : PyVal) :
    List Effect × Except Exn PyVal :=
  if env.crewaiAvailable = false then
    blog_generate_using_bedrock env blogtopic
  else
    let audience_str := if pyTruthy target_audience then pyStrOf target_audience
      else "a general business audience"
    let tone_str := if pyTruthy tone then pyStrOf tone
      else "helpful, expert, and approachable"
    let brand_str := if pyTruthy brand_name then pyStrOf brand_name else "our brand"
    match (if pyTruthy seo_keywords then pyJoinComma seo_keywords else .ok "") with
    | .error e => ([], .error e)
    | .ok keywords_str =>
      let c := crew blogtopic audience_str brand_str tone_str keywords_str target_word_count
      match env.kickoff with
      | .error e => ([.crewKickoff c], .error e)
      | .ok result =>
        ([.crewKickoff c], .ok (
          match env.editOutput with
          | .ok (some (.pstr final_text)) =>
              if pyStrip final_text != "" then .pstr (pyStrip final_text)
              else .pstr (pyStrip (pyStrOf result))
          | _ => .pstr (pyStrip (pyStrOf result))))

/-- `save_blog_details_s3(s3_key, s3_bucket, generate_blog)`: attempts the
object-store write; success and failure are both only printed, the
function always returns None. -/
def save_blog_details_s3 (env : Env) (s3_key s3_bucket : String)
    (generate_blog : PyVal) : List Effect × Except Exn PyVal :=
  match env.s3Put s3_bucket s3_key generate_blog with
  | .ok _ => ([.s3PutObject s3_bucket s3_key generate_blog], .ok .pnone)
  | .error _ => ([.s3PutObject s3_bucket s3_key generate_blog], .ok .pnone)

/-- `json.dumps` of a plain string (no escapable characters occur in the
module's fixed message). -/
def jsonDumpsStr (s : String) : String := "\"" ++ s ++ "\""

/-- The fixed envelope returned at the end of `lambda_handler`. -/
def successEnvelope : PyVal :=
  .pdict [("statusCode", .pint 200),
          ("body", .pstr (jsonDumpsStr "Blog generation is completed"))]

/-- `lambda_handler(event, context)`.

`event['body']`, `json.loads`, and `event['blog_topic']` are not guarded:
their exceptions abort the invocation before anything else happens
(`json.loads` raises TypeError on a non-string body).  A truthy pipeline
result is saved under `blog-output/{now:YYYYMMDD-HHMMSS}.txt` in the fixed
bucket `aws_bedrock_course1`; a falsy one is only printed about.  Every
completed run returns the fixed success envelope. -/
def lambda_handler (env : Env) (event : PyVal) : List Effect × Except Exn PyVal :=
  match pySubscript event "body" with
  | .error e => ([], .error e)
  | .ok (.pstr bodyStr) =>
    (match env.jsonLoads bodyStr with
     | .error e => ([], .error e)
     | .ok ev =>
       match pySubscript ev "blog_topic" with
       | .error e => ([], .error e)
       | .ok blogtopic =>
         let brand := pyGet ev "brand_name"
         let audience := pyGet ev "target_audience"
         let tone := pyGet ev "tone"
         let seo_keywords := pyGet ev "seo_keywords"
         let word_count := pyGetD ev "target_word_count" (.pint 700)
         match blog_generate_using_crewai_content_marketing env blogtopic brand
             audience tone seo_keywords word_count with
         | (tr, .error e) => (tr, .error e)
         | (tr, .ok generate_blog) =>
           if pyTruthy generate_blog then
             let current_time := formatTime env.now
             let s3_key := "blog-output/" ++ current_time ++ ".txt"
             let s3_bucket := "aws_bedrock_course1"
             (tr ++ (save_blog_details_s3 env s3_key s3_bucket generate_blog).fst,
              .ok successEnvelope)
           else
             (tr, .ok successEnvelope))
  | .ok _ => ([], .error .typeError)

/-- Baseline concrete oracle environment used to instantiate theorems:
parsing yields a body with a topic, the direct path responds with a
`generation` field, CrewAI is unavailable, storage writes succeed. -/
def envBase : Env :=
  { jsonLoads := fun _ => .ok (.pdict [("blog_topic", .pstr "cloud")])
    bedrockInvoke := fun _ => .ok (.pdict [("generation", .pstr "demo blog")])
    crewaiAvailable := false
    kickoff := .ok (.pstr "aggregate text")
    editOutput := .ok none
    s3Put := fun _ _ _ => .ok ()
    now := ⟨2024, 3, 7, 9, 5, 30⟩ }

/-- A well-formed API-Gateway-style event: a dict with a string body. -/
def eventOk : PyVal := .pdict [("body", .pstr "payload")]

/-- Evaluation of the direct path: its result value is total, determined
by the invocation oracle and the `generation` field lookup. -/
theorem blog_generate_using_bedrock_snd (env : Env) (t : PyVal) :
    (blog_generate_using_bedrock env t).2 =
      .ok (match env.bedrockInvoke (bedrockPrompt t) with
        | .error _ => .pstr ""
        | .ok d =>
          match pySubscript d "generation" with
          | .error _ => .pstr ""
          | .ok v => v) := by
  cases h : env.bedrockInvoke (bedrockPrompt t) with
  | error e => simp [blog_generate_using_bedrock, h]
  | ok d =>
    cases h2 : pySubscript d "generation" with
    | error e => simp [blog_generate_using_bedrock, h, h2]
    | ok v => simp [blog_generate_using_bedrock, h, h2]

/-- When CrewAI is unavailable the staged function is literally the direct
path applied to the same topic. -/
theorem staged_eq_direct_of_unavailable (env : Env)
    (b bn ta tn sk twc : PyVal) (h : env.crewaiAvailable = false) :
    blog_generate_using_crewai_content_marketing env b bn ta tn sk twc =
      blog_generate_using_bedrock env b := by
  unfold blog_generate_using_crewai_content_marketing
  rw [h]
  rfl

/-- Evaluation of the staged path once CrewAI is available, the keyword
join succeeded and the kickoff completed. -/
theorem staged_snd_of_kickoff_ok (env : Env) (b bn ta tn sk twc : PyVal)
    (ks : String) (r : PyVal)
    (havail : env.crewaiAvailable = true)
    (hks : (if pyTruthy sk then pyJoinComma sk else Except.ok "") = .ok ks)
    (hkick : env.kickoff = .ok r) :
    (blog_generate_using_crewai_content_marketing env b bn ta tn sk twc).2 =
      .ok (match env.editOutput with
        | .ok (some (.pstr s)) =>
            if pyStrip s != "" then .pstr (pyStrip s)
            else .pstr (pyStrip (pyStrOf r))
        | _ => .pstr (pyStrip (pyStrOf r))) := by
  cases heo : env.editOutput with
  | error e => simp [blog_generate_using_crewai_content_marketing, havail, hks, hkick, heo]
  | ok o =>
    match o with
    | none => simp [blog_generate_using_crewai_content_marketing, havail, hks, hkick, heo]
    | some (.pstr s) => simp [blog_generate_using_crewai_content_marketing, havail, hks, hkick, heo]
    | some .pnone => simp [blog_generate_using_crewai_content_marketing, havail, hks, hkick, heo]
    | some (.pbool bb) => simp [blog_generate_using_crewai_content_marketing, havail, hks, hkick, heo]
    | some (.pint n) => simp [blog_generate_using_crewai_content_marketing, havail, hks, hkick, heo]
    | some (.plist xs) => simp [blog_generate_using_crewai_content_marketing, havail, hks, hkick, heo]
    | some (.pdict kvs) => simp [blog_generate_using_crewai_content_marketing, havail, hks, hkick, heo]

/-- The content pipeline itself never attempts an object-store write: its
trace holds only model-invocation and kickoff effects. -/
theorem staged_trace_no_put (env : Env) (b bn ta tn sk twc : PyVal) :
    ((blog_generate_using_crewai_content_marketing env b bn ta tn sk twc).1.all
      (fun ef => !ef.isPut)) = true := by
  cases ha : env.crewaiAvailable with
  | false =>
    rw [staged_eq_direct_of_unavailable env b bn ta tn sk twc ha]
    cases h : env.bedrockInvoke (bedrockPrompt b) with
    | error e => simp [blog_generate_using_bedrock, h, Effect.isPut]
    | ok d =>
      cases h2 : pySubscript d "generation" with
      | error e => simp [blog_generate_using_bedrock, h, h2, Effect.isPut]
      | ok v => simp [blog_generate_using_bedrock, h, h2, Effect.isPut]
  | true =>
    cases hks : (if pyTruthy sk then pyJoinComma sk else Except.ok "") with
    | error e => simp [blog_generate_using_crewai_content_marketing, ha, hks]
    | ok ks =>
      cases hk : env.kickoff with
      | error e =>
        simp [blog_generate_using_crewai_content_marketing, ha, hks, hk, Effect.isPut]
      | ok r =>
        simp [blog_generate_using_crewai_content_marketing, ha, hks, hk, Effect.isPut]

/-- Claim C2: for every request where CrewAI's primitives are not loadable,
the staged pipeline function skips all four stages (the availability check
is the first thing it does, before any stage is built or run) and returns
exactly the Direct Generation output for the same topic, with the same
external-call trace. -/
theorem C2_unavailable_fallback_equals_direct (env : Env)
    (b bn ta tn sk twc : PyVal) (h : env.crewaiAvailable = false) :
    blog_generate_using_crewai_content_marketing env b bn ta tn sk twc =
      blog_generate_using_bedrock env b :=
  staged_eq_direct_of_unavailable env b bn ta tn sk twc h

/-- Claim C2 (witness): a concrete unavailable environment on which the
staged call and the direct call coincide. -/
theorem C2_unavailable_fallback_equals_direct_witness :
    envBase.crewaiAvailable = false
    ∧ blog_generate_using_crewai_content_marketing envBase (.pstr "cloud")
        .pnone .pnone .pnone .pnone (.pint 700) =
      blog_generate_using_bedrock envBase (.pstr "cloud") :=
  ⟨rfl, C2_unavailable_fallback_equals_direct envBase (.pstr "cloud")
    .pnone .pnone .pnone .pnone (.pint 700) rfl⟩

/-- Claim C3: for every topic string, the Direct Generation function
returns normally (never raises): the generated text when the inference
chain yields a payload carrying the `generation` field, and the empty
string when the inference chain raises or the field lookup on the decoded
payload fails. -/
theorem C3_direct_generation_never_raises (env : Env) (t : String) :
    (∃ v, (blog_generate_using_bedrock env (.pstr t)).2 = .ok v)
    ∧ (∀ e, env.bedrockInvoke (bedrockPrompt (.pstr t)) = .error e →
        (blog_generate_using_bedrock env (.pstr t)).2 = .ok (.pstr ""))
    ∧ (∀ d, env.bedrockInvoke (bedrockPrompt (.pstr t)) = .ok d →
        (∀ e, pySubscript d "generation" = .error e →
          (blog_generate_using_bedrock env (.pstr t)).2 = .ok (.pstr ""))
        ∧ (∀ v, pySubscript d "generation" = .ok v →
          (blog_generate_using_bedrock env (.pstr t)).2 = .ok v)) := by
  refine ⟨⟨_, blog_generate_using_bedrock_snd env (.pstr t)⟩,
    fun e he => ?_, fun d hd => ⟨fun e he => ?_, fun v hv => ?_⟩⟩
  · rw [blog_generate_using_bedrock_snd, he]
  · rw [blog_generate_using_bedrock_snd, hd]
    simp [he]
  · rw [blog_generate_using_bedrock_snd, hd]
    simp [hv]

/-- Claim C3 (witness): on a concrete environment the (trivial) existence
part and the success and failure parts of C3 are realised: the success
branch returns the payload's generation text, and on an environment whose
inference chain raises the result is the empty string. -/
theorem C3_direct_generation_never_raises_witness :
    envBase.bedrockInvoke (bedrockPrompt (.pstr "cloud")) =
        .ok (.pdict [("generation", .pstr "demo blog")])
    ∧ (blog_generate_using_bedrock envBase (.pstr "cloud")).2 = .ok (.pstr "demo blog")
    ∧ (blog_generate_using_bedrock
        { envBase with bedrockInvoke := fun _ => .error (.external "model down") }
        (.pstr "cloud")).2 = .ok (.pstr "") :=
  ⟨rfl,
   ((C3_direct_generation_never_raises envBase "cloud").2.2
     (.pdict [("generation", .pstr "demo blog")]) rfl).2 (.pstr "demo blog") rfl,
   (C3_direct_generation_never_raises
     { envBase with bedrockInvoke := fun _ => .error (.external "model down") }
     "cloud").2.1 (.external "model down") rfl⟩

/-- Claim C6: in every staged run, each stage's prompt context is exactly
the list of strictly-prior stage tasks — Research none, Outline gets
Research, Write gets Research and Outline, Edit gets Research, Outline and
Write — and the crew submits the four tasks in exactly that order under
the sequential process, so stages execute strictly in that order and no
stage's context names a later stage. -/
theorem C6_stage_contexts_strictly_prior (blogtopic : PyVal)
    (audience_str brand_str tone_str keywords_str : String) (twc : PyVal) :
    (research_task blogtopic audience_str brand_str tone_str keywords_str).context = []
    ∧ (outline_task blogtopic audience_str brand_str tone_str keywords_str).context
        = [research_task blogtopic audience_str brand_str tone_str keywords_str]
    ∧ (write_task blogtopic audience_str brand_str tone_str keywords_str twc).context
        = [research_task blogtopic audience_str brand_str tone_str keywords_str,
           outline_task blogtopic audience_str brand_str tone_str keywords_str]
    ∧ (edit_task blogtopic audience_str brand_str tone_str keywords_str twc).context
        = [research_task blogtopic audience_str brand_str tone_str keywords_str,
           outline_task blogtopic audience_str brand_str tone_str keywords_str,
           write_task blogtopic audience_str brand_str tone_str keywords_str twc]
    ∧ (crew blogtopic audience_str brand_str tone_str keywords_str twc).tasks
        = [research_task blogtopic audience_str brand_str tone_str keywords_str,
           outline_task blogtopic audience_str brand_str tone_str keywords_str,
           write_task blogtopic audience_str brand_str tone_str keywords_str twc,
           edit_task blogtopic audience_str brand_str tone_str keywords_str twc]
    ∧ (crew blogtopic audience_str brand_str tone_str keywords_str twc).process
        = Process.sequential :=
  ⟨rfl, rfl, rfl, rfl, rfl, rfl⟩

/-- Claim C7: for every event whose parsed body lacks `blog_topic`, or
whose body is malformed JSON, the invocation raises an uncaught error with
an empty external-call trace — no generation call and no persistence write
is attempted. -/
theorem C7_missing_topic_fails_before_effects (env : Env) (event : PyVal)
    (bodyStr : String)
    (hbody : pySubscript event "body" = .ok (.pstr bodyStr)) :
    (∀ e, env.jsonLoads bodyStr = .error e →
      lambda_handler env event = ([], .error e))
    ∧ (∀ ev e, env.jsonLoads bodyStr = .ok ev →
        pySubscript ev "blog_topic" = .error e →
        lambda_handler env event = ([], .error e)) := by
  constructor
  · intro e he
    simp [lambda_handler, hbody, he]
  · intro ev e hev htopic
    simp [lambda_handler, hbody, hev, htopic]

/-- Claim C7 (witness): concrete malformed-JSON and missing-topic events,
each aborting with an empty effect trace. -/
theorem C7_missing_topic_fails_before_effects_witness :
    lambda_handler { envBase with jsonLoads := fun _ => .error (.valueError "bad json") }
        eventOk = ([], .error (.valueError "bad json"))
    ∧ lambda_handler { envBase with jsonLoads := fun _ => .ok (.pdict [("other", .pnone)]) }
        eventOk = ([], .error (.keyError "blog_topic")) :=
  ⟨(C7_missing_topic_fails_before_effects
      { envBase with jsonLoads := fun _ => .error (.valueError "bad json") }
      eventOk "payload" rfl).1 (.valueError "bad json") rfl,
   (C7_missing_topic_fails_before_effects
      { envBase with jsonLoads := fun _ => .ok (.pdict [("other", .pnone)]) }
      eventOk "payload" rfl).2 (.pdict [("other", .pnone)]) (.keyError "blog_topic") rfl rfl⟩

/-- Environment in which CrewAI is available but `crew.kickoff()` raises. -/
def envKickoffRaises : Env :=
  { envBase with crewaiAvailable := true, kickoff := .error (.external "boom") }

/-- Claim C1 (counterexample): an invocation whose body parses to a JSON
dict containing `blog_topic` — so the handler body executes past input
parsing — yet the handler does not return the fixed envelope: CrewAI is
available and `crew.kickoff()` raises, and that exception propagates out
of the handler. -/
theorem C1_counterexample :
    envKickoffRaises.jsonLoads "payload" = .ok (.pdict [("blog_topic", .pstr "cloud")])
    ∧ (lambda_handler envKickoffRaises eventOk).2 = .error (.external "boom") :=
  ⟨rfl, rfl⟩

/-- Claim C1 (amended): for every invocation in which the handler body
executes past input parsing (a JSON body containing `blog_topic`) and the
content-pipeline call returns normally, the handler returns the fixed
envelope `{statusCode: 200, body: "Blog generation is completed"}`,
regardless of whether generation produced text or the persistence write
succeeded. -/
theorem C1_handler_returns_fixed_envelope (env : Env) (event : PyVal)
    (bodyStr : String) (ev topic : PyVal) (tr : List Effect) (v : PyVal)
    (hbody : pySubscript event "body" = .ok (.pstr bodyStr))
    (hjson : env.jsonLoads bodyStr = .ok ev)
    (htopic : pySubscript ev "blog_topic" = .ok topic)
    (hpipe : blog_generate_using_crewai_content_marketing env topic
        (pyGet ev "brand_name") (pyGet ev "target_audience") (pyGet ev "tone")
        (pyGet ev "seo_keywords") (pyGetD ev "target_word_count" (.pint 700))
        = (tr, .ok v)) :
    (lambda_handler env event).2 = .ok successEnvelope := by
  by_cases hv : pyTruthy v = true
  · simp [lambda_handler, hbody, hjson, htopic, hpipe, hv]
  · simp [lambda_handler, hbody, hjson, htopic, hpipe, hv]

/-- Claim C1 (witness): a concrete invocation whose pipeline call returns —
here via the direct fallback — on which the handler yields the envelope. -/
theorem C1_handler_returns_fixed_envelope_witness :
    (lambda_handler envBase eventOk).2 = .ok successEnvelope :=
  C1_handler_returns_fixed_envelope envBase eventOk "payload"
    (.pdict [("blog_topic", .pstr "cloud")]) (.pstr "cloud")
    [.bedrockCall (bedrockPrompt (.pstr "cloud"))] (.pstr "demo blog")
    rfl rfl rfl rfl

/-- Environment in which CrewAI is available and its own execution fails
mid-pipeline (`crew.kickoff()` raises). -/
def envMidPipelineFailure : Env :=
  { envBase with
      crewaiAvailable := true
      kickoff := .error (.external "mid-pipeline failure") }

/-- Claim C4 (counterexample): a request that reaches the content pipeline
while CrewAI is available and whose staged execution fails mid-pipeline:
the exception escapes the pipeline call uncaught, refuting the claim that
the pipeline never lets an exception escape to its caller. -/
theorem C4_counterexample :
    envMidPipelineFailure.crewaiAvailable = true
    ∧ (blog_generate_using_crewai_content_marketing envMidPipelineFailure
        (.pstr "cloud") .pnone .pnone .pnone .pnone (.pint 700)).2
      = .error (.external "mid-pipeline failure") :=
  ⟨rfl, rfl⟩

/-- Claim C4 (amended): the pipeline call never lets an exception escape
when the orchestration framework is unavailable — the direct path shields
its own call and always returns a value; but when the framework is
available, a failure inside the staged framework's own execution
(`crew.kickoff()`) propagates to the caller uncaught. -/
theorem C4_amended_exception_containment (env : Env)
    (b bn ta tn sk twc : PyVal) :
    (env.crewaiAvailable = false →
      ∃ v, (blog_generate_using_crewai_content_marketing env b bn ta tn sk twc).2 = .ok v)
    ∧ (∀ e ks, env.crewaiAvailable = true → env.kickoff = .error e →
        (if pyTruthy sk then pyJoinComma sk else Except.ok "") = .ok ks →
        (blog_generate_using_crewai_content_marketing env b bn ta tn sk twc).2
          = .error e) := by
  constructor
  · intro h
    rw [staged_eq_direct_of_unavailable env b bn ta tn sk twc h]
    exact ⟨_, blog_generate_using_bedrock_snd env b⟩
  · intro e ks ha hk hks
    simp [blog_generate_using_crewai_content_marketing, ha, hk, hks]

/-- Claim C4 (witness): both halves of the amended claim at concrete
environments — containment when CrewAI is unavailable, propagation of a
concrete mid-pipeline failure when it is available. -/
theorem C4_amended_exception_containment_witness :
    (∃ v, (blog_generate_using_crewai_content_marketing envBase
        (.pstr "cloud") .pnone .pnone .pnone .pnone (.pint 700)).2 = .ok v)
    ∧ (blog_generate_using_crewai_content_marketing envMidPipelineFailure
        (.pstr "cloud") .pnone .pnone .pnone .pnone (.pint 700)).2
      = .error (.external "mid-pipeline failure") :=
  ⟨(C4_amended_exception_containment envBase
      (.pstr "cloud") .pnone .pnone .pnone .pnone (.pint 700)).1 rfl,
   (C4_amended_exception_containment envMidPipelineFailure
      (.pstr "cloud") .pnone .pnone .pnone .pnone (.pint 700)).2
      (.external "mid-pipeline failure") "" rfl rfl rfl⟩

/-- Environment whose completed staged run has an edit-task raw output
that is a non-blank string with surrounding whitespace. -/
def envEditPadded : Env :=
  { envBase with
      crewaiAvailable := true
      editOutput := .ok (some (.pstr " x ")) }

/-- Claim C5 (counterexample): a staged run completes with the Edit
stage's textual output present, a string, and non-blank, namely `" x "`;
the staged path returns `"x"` — the stripped text — not that text itself,
refuting the claim that the Edit output text is the return value. -/
theorem C5_counterexample :
    envEditPadded.editOutput = .ok (some (.pstr " x "))
    ∧ pyStrip " x " ≠ ""
    ∧ (blog_generate_using_crewai_content_marketing envEditPadded
        (.pstr "cloud") .pnone .pnone .pnone .pnone (.pint 700)).2
      = .ok (.pstr "x")
    ∧ ("x" : String) ≠ " x " :=
  ⟨rfl, by decide, rfl, by decide⟩

/-- Claim C5 (amended): for every staged run that completes, if the Edit
stage's textual output is present, a string, and non-blank, that text
stripped of leading and trailing whitespace is the staged path's return
value; otherwise — output absent, blank, not a string, or an exception
raised while extracting it, which is swallowed — the aggregate pipeline
result converted to text and stripped is returned. -/
theorem C5_amended_edit_output_extraction (env : Env)
    (b bn ta tn sk twc : PyVal) (ks : String) (r : PyVal)
    (havail : env.crewaiAvailable = true)
    (hks : (if pyTruthy sk then pyJoinComma sk else Except.ok "") = .ok ks)
    (hkick : env.kickoff = .ok r) :
    (∀ s, env.editOutput = .ok (some (.pstr s)) → pyStrip s ≠ "" →
      (blog_generate_using_crewai_content_marketing env b bn ta tn sk twc).2
        = .ok (.pstr (pyStrip s)))
    ∧ (∀ s, env.editOutput = .ok (some (.pstr s)) → pyStrip s = "" →
      (blog_generate_using_crewai_content_marketing env b bn ta tn sk twc).2
        = .ok (.pstr (pyStrip (pyStrOf r))))
    ∧ (env.editOutput = .ok none →
      (blog_generate_using_crewai_content_marketing env b bn ta tn sk twc).2
        = .ok (.pstr (pyStrip (pyStrOf r))))
    ∧ (∀ e, env.editOutput = .error e →
      (blog_generate_using_crewai_content_marketing env b bn ta tn sk twc).2
        = .ok (.pstr (pyStrip (pyStrOf r))))
    ∧ (∀ v, env.editOutput = .ok (some v) → (∀ s, v ≠ .pstr s) →
      (blog_generate_using_crewai_content_marketing env b bn ta tn sk twc).2
        = .ok (.pstr (pyStrip (pyStrOf r)))) := by
  refine ⟨fun s heo hs => ?_, fun s heo hs => ?_, fun heo => ?_,
    fun e heo => ?_, fun v heo hv => ?_⟩
  · rw [staged_snd_of_kickoff_ok env b bn ta tn sk twc ks r havail hks hkick, heo]
    simp [hs]
  · rw [staged_snd_of_kickoff_ok env b bn ta tn sk twc ks r havail hks hkick, heo]
    simp [hs]
  · rw [staged_snd_of_kickoff_ok env b bn ta tn sk twc ks r havail hks hkick, heo]
  · rw [staged_snd_of_kickoff_ok env b bn ta tn sk twc ks r havail hks hkick, heo]
  · rw [staged_snd_of_kickoff_ok env b bn ta tn sk twc ks r havail hks hkick, heo]
    cases v with
    | pstr s => exact absurd rfl (hv s)
    | pnone => rfl
    | pbool bb => rfl
    | pint n => rfl
    | plist xs => rfl
    | pdict kvs => rfl

/-- Environment whose completed staged run has a clean non-blank edit
output. -/
def envEditClean : Env :=
  { envBase with
      crewaiAvailable := true
      editOutput := .ok (some (.pstr "Final article.")) }

/-- Claim C5 (witness): on a concrete completed run the non-blank edit
output is returned (already stripped), and on a run whose edit output is
absent the stripped aggregate text is returned. -/
theorem C5_amended_edit_output_extraction_witness :
    (blog_generate_using_crewai_content_marketing envEditClean
        (.pstr "cloud") .pnone .pnone .pnone .pnone (.pint 700)).2
      = .ok (.pstr "Final article.")
    ∧ (blog_generate_using_crewai_content_marketing
        { envBase with crewaiAvailable := true }
        (.pstr "cloud") .pnone .pnone .pnone .pnone (.pint 700)).2
      = .ok (.pstr "aggregate text") :=
  ⟨(C5_amended_edit_output_extraction envEditClean
      (.pstr "cloud") .pnone .pnone .pnone .pnone (.pint 700) ""
      (.pstr "aggregate text") rfl rfl rfl).1 "Final article." rfl (by decide),
   (C5_amended_edit_output_extraction { envBase with crewaiAvailable := true }
      (.pstr "cloud") .pnone .pnone .pnone .pnone (.pint 700) ""
      (.pstr "aggregate text") rfl rfl rfl).2.2.1 rfl⟩

/-- Claim C8: for every invocation with truthy generated text, an
exception raised by the object-store write is caught inside the
persistence adapter — which still returns None — and the handler's
returned envelope remains the fixed success envelope. -/
theorem C8_persistence_failure_preserves_envelope (env : Env) (event : PyVal)
    (bodyStr : String) (ev topic : PyVal) (tr : List Effect) (v : PyVal) (e : Exn)
    (hbody : pySubscript event "body" = .ok (.pstr bodyStr))
    (hjson : env.jsonLoads bodyStr = .ok ev)
    (htopic : pySubscript ev "blog_topic" = .ok topic)
    (hpipe : blog_generate_using_crewai_content_marketing env topic
        (pyGet ev "brand_name") (pyGet ev "target_audience") (pyGet ev "tone")
        (pyGet ev "seo_keywords") (pyGetD ev "target_word_count" (.pint 700))
        = (tr, .ok v))
    (htruthy : pyTruthy v = true)
    (hs3 : env.s3Put "aws_bedrock_course1"
        ("blog-output/" ++ formatTime env.now ++ ".txt") v = .error e) :
    (save_blog_details_s3 env ("blog-output/" ++ formatTime env.now ++ ".txt")
        "aws_bedrock_course1" v).2 = .ok .pnone
    ∧ (lambda_handler env event).2 = .ok successEnvelope := by
  constructor
  · simp [save_blog_details_s3, hs3]
  · simp [lambda_handler, hbody, hjson, htopic, hpipe, htruthy]

/-- Environment in which the object-store write always raises. -/
def envS3Down : Env :=
  { envBase with s3Put := fun _ _ _ => .error (.external "s3 down") }

/-- Claim C8 (witness): a concrete invocation with a forced storage-write
error, on which the adapter returns None and the handler still returns
the fixed envelope. -/
theorem C8_persistence_failure_preserves_envelope_witness :
    envS3Down.s3Put "aws_bedrock_course1" "blog-output/20240307-090530.txt"
        (.pstr "demo blog") = .error (.external "s3 down")
    ∧ (save_blog_details_s3 envS3Down "blog-output/20240307-090530.txt"
        "aws_bedrock_course1" (.pstr "demo blog")).2 = .ok .pnone
    ∧ (lambda_handler envS3Down eventOk).2 = .ok successEnvelope :=
  ⟨rfl,
   (C8_persistence_failure_preserves_envelope envS3Down eventOk "payload"
      (.pdict [("blog_topic", .pstr "cloud")]) (.pstr "cloud")
      [.bedrockCall (bedrockPrompt (.pstr "cloud"))] (.pstr "demo blog")
      (.external "s3 down") rfl rfl rfl rfl rfl rfl).1,
   (C8_persistence_failure_preserves_envelope envS3Down eventOk "payload"
      (.pdict [("blog_topic", .pstr "cloud")]) (.pstr "cloud")
      [.bedrockCall (bedrockPrompt (.pstr "cloud"))] (.pstr "demo blog")
      (.external "s3 down") rfl rfl rfl rfl rfl rfl).2⟩

/-- Claim C9: for every invocation whose pipeline returns non-empty text,
that text is written verbatim as the body of exactly one object-store
write, under the key `blog-output/{YYYYMMDD-HHMMSS}.txt` built from the
invocation's timestamp, in the single fixed bucket `aws_bedrock_course1`,
and the handler returns the fixed envelope. -/
theorem C9_nonempty_text_persisted_verbatim (env : Env) (event : PyVal)
    (bodyStr : String) (ev topic : PyVal) (tr : List Effect) (s : String)
    (hbody : pySubscript event "body" = .ok (.pstr bodyStr))
    (hjson : env.jsonLoads bodyStr = .ok ev)
    (htopic : pySubscript ev "blog_topic" = .ok topic)
    (hpipe : blog_generate_using_crewai_content_marketing env topic
        (pyGet ev "brand_name") (pyGet ev "target_audience") (pyGet ev "tone")
        (pyGet ev "seo_keywords") (pyGetD ev "target_word_count" (.pint 700))
        = (tr, .ok (.pstr s)))
    (hs : s ≠ "") :
    lambda_handler env event =
      (tr ++ [.s3PutObject "aws_bedrock_course1"
          ("blog-output/" ++ formatTime env.now ++ ".txt") (.pstr s)],
       .ok successEnvelope) := by
  have htr : pyTruthy (.pstr s) = true := by simp [pyTruthy, hs]
  cases h3 : env.s3Put "aws_bedrock_course1"
      ("blog-output/" ++ formatTime env.now ++ ".txt") (.pstr s) with
  | ok u =>
    simp [lambda_handler, hbody, hjson, htopic, hpipe, htr, save_blog_details_s3, h3]
  | error e =>
    simp [lambda_handler, hbody, hjson, htopic, hpipe, htr, save_blog_details_s3, h3]

/-- Claim C9 (witness): a concrete invocation whose generated text is
persisted verbatim at the timestamped key in the fixed bucket. -/
theorem C9_nonempty_text_persisted_verbatim_witness :
    lambda_handler envBase eventOk =
      ([.bedrockCall (bedrockPrompt (.pstr "cloud")),
        .s3PutObject "aws_bedrock_course1" "blog-output/20240307-090530.txt"
          (.pstr "demo blog")],
       .ok successEnvelope) :=
  C9_nonempty_text_persisted_verbatim envBase eventOk "payload"
    (.pdict [("blog_topic", .pstr "cloud")]) (.pstr "cloud")
    [.bedrockCall (bedrockPrompt (.pstr "cloud"))] "demo blog"
    rfl rfl rfl rfl (by decide)

/-- Claim C10: for every invocation whose content pipeline returns the
empty string, the handler performs no object-store write at all — its
whole effect trace is the pipeline's own trace, which holds no write —
and it still returns the fixed success envelope. -/
theorem C10_empty_result_skips_persistence (env : Env) (event : PyVal)
    (bodyStr : String) (ev topic : PyVal) (tr : List Effect)
    (hbody : pySubscript event "body" = .ok (.pstr bodyStr))
    (hjson : env.jsonLoads bodyStr = .ok ev)
    (htopic : pySubscript ev "blog_topic" = .ok topic)
    (hpipe : blog_generate_using_crewai_content_marketing env topic
        (pyGet ev "brand_name") (pyGet ev "target_audience") (pyGet ev "tone")
        (pyGet ev "seo_keywords") (pyGetD ev "target_word_count" (.pint 700))
        = (tr, .ok (.pstr ""))) :
    lambda_handler env event = (tr, .ok successEnvelope)
    ∧ tr.all (fun ef => !ef.isPut) = true := by
  constructor
  · simp [lambda_handler, hbody, hjson, htopic, hpipe, pyTruthy]
  · have h := staged_trace_no_put env topic (pyGet ev "brand_name")
      (pyGet ev "target_audience") (pyGet ev "tone") (pyGet ev "seo_keywords")
      (pyGetD ev "target_word_count" (.pint 700))
    rw [hpipe] at h
    exact h

/-- Environment in which the direct-path inference chain raises, so the
pipeline yields the empty string. -/
def envModelDown : Env :=
  { envBase with bedrockInvoke := fun _ => .error (.external "model down") }

/-- Claim C10 (witness): a concrete invocation whose pipeline yields the
empty string; the handler's trace holds the model call only — no write —
and the envelope is still returned. -/
theorem C10_empty_result_skips_persistence_witness :
    lambda_handler envModelDown eventOk =
      ([.bedrockCall (bedrockPrompt (.pstr "cloud"))], .ok successEnvelope)
    ∧ ([Effect.bedrockCall (bedrockPrompt (.pstr "cloud"))].all
        (fun ef => !ef.isPut)) = true :=
  C10_empty_result_skips_persistence envModelDown eventOk "payload"
    (.pdict [("blog_topic", .pstr "cloud")]) (.pstr "cloud")
    [.bedrockCall (bedrockPrompt (.pstr "cloud"))]
    rfl rfl rfl rfl
